import Mathlib

/-!
Shallow embedding of `src/client/src/components/AuthClient.ts`, the
browser-side authentication client of the who-owns-what repository.

Modelling conventions:
* JavaScript values that flow out of `JSON.parse` are modelled by the
  inductive `Json` (JSON numbers that matter here are integers, so `Int`
  is used for the numeric case).
* A `fetch` `Response` is modelled by `Response`: its `ok` flag plus the
  outcome of `response.json()` (`Except String Json`, the error carrying
  the parse-failure message).  An async call that can reject is modelled
  as `Except String α`, the error carrying the rejection message (the
  code only ever throws `Error` instances, whose `message` we keep).
* The network is an explicit parameter: each operation takes the
  transport outcome (`Except String Response`) that `fetch` would have
  produced for the request it issues.
* The module-level mutable slot `_user` is threaded explicitly as
  `Option JustfixUser` (`none` = `undefined`).
-/

set_option autoImplicit false

namespace AuthClient

/-- JavaScript/JSON values as they appear after `JSON.parse`. -/
inductive Json where
  | null
  | bool (b : Bool)
  | num (n : Int)
  | str (s : String)
  | arr (elems : List Json)
  | obj (fields : List (String × Json))

/-- JavaScript truthiness of a parsed JSON value (`!!v`):
`null`, `false`, `0` and `""` are falsy; arrays and objects are truthy. -/
def Json.truthy : Json → Bool
  | .null => false
  | .bool b => b
  | .num n => n ≠ 0
  | .str s => s ≠ ""
  | .arr _ => true
  | .obj _ => true

/-- Property lookup on a JS object literal: with duplicate keys the last
assignment wins, so we look from the right. -/
def lookupField : List (String × Json) → String → Option Json
  | [], _ => none
  | (k, v) :: rest, key =>
    match lookupField rest key with
    | some w => some w
    | none => if k = key then some v else none

/-- A `fetch` `Response`: the HTTP success flag and the outcome of
`response.json()` (`Except.error` = the body failed to parse as JSON). -/
structure Response where
  ok : Bool
  jsonResult : Except String Json

/-- What `postAuthRequest` hands back when it does not throw: either the
parsed JSON body, or — when the body fails to parse — the raw `Response`
object itself. -/
inductive PAResult where
  | json (j : Json)
  | raw (r : Response)

/-- JS property access `v[key]` on a `postAuthRequest` result: only a
parsed JSON object has the duck-typed fields the client reads; on any
other value (including a raw `Response`) the access yields `undefined`. -/
def PAResult.get : PAResult → String → Option Json
  | .json (.obj fields), key => lookupField fields key
  | .json _, _ => none
  | .raw _, _ => none

/-- JS truthiness of a `postAuthRequest` result: a raw `Response` is an
object, hence truthy. -/
def PAResult.truthy : PAResult → Bool
  | .json j => j.truthy
  | .raw _ => true

/-- `friendlyFetch`: awaits `fetch`; a rejection is rethrown as a
`NetworkError` carrying the same message, a fulfilled response is
returned unchanged. -/
def friendlyFetch (fetchOutcome : Except String Response) : Except String Response :=
  match fetchOutcome with
  | .ok response => .ok response
  | .error m => .error m

/-- `postAuthRequest` after the transport: both branches of
`if (result.ok)` do `await result.json()`; the surrounding `try` turns a
parse failure into returning the raw response object.  A transport
failure (thrown by `friendlyFetch`) propagates. -/
def postAuthRequest (transport : Except String Response) : Except String PAResult :=
  match friendlyFetch transport with
  | .error m => .error m
  | .ok result =>
    match result.jsonResult with
    | .ok j => .ok (.json j)
    | .error _ => .ok (.raw result)

/-- `postLoginCredentials` after the transport: `return await result.json()`
with no `try`/`catch`, so a parse failure propagates to the caller, as
does a transport failure. -/
def postLoginCredentials (transport : Except String Response) : Except String Json :=
  match friendlyFetch transport with
  | .error m => .error m
  | .ok result => result.jsonResult

/-- `userAuthenticated`: a `postAuthRequest` against `auth/auth_check`. -/
def userAuthenticated (transport : Except String Response) : Except String PAResult :=
  postAuthRequest transport

/-- The `JustfixUser` object built by `fetchUser` (and accepted by
`setUser`).  The duck-typed field reads `authCheck["email"]` etc. can
yield `undefined`, hence the `Option Json` fields; `subscriptions` is
always an array after the `|| []` default. -/
structure JustfixUser where
  email : Option Json
  verified : Option Json
  id : Option Json
  type : Option Json
  subscriptions : List Json
  subscriptionLimit : Option Json

/-- JS object spread `{...s}`: copies an object's own fields; spreading
any non-object produces the empty object. -/
def spreadCopy : Json → Json
  | .obj fields => .obj fields
  | _ => .obj []

/-- Evaluates `authCheck["subscriptions"]?.map((s) => ({...s})) || []`.
`?.` short-circuits `undefined` and `null` to `undefined`, which `|| []`
replaces with `[]`; on an array, `.map` copies each element; on any
other value `.map` is not a function, so the expression throws a
`TypeError` (carried as `Except.error`). -/
def subscriptionsOf (authCheck : PAResult) : Except String (List Json) :=
  match authCheck.get "subscriptions" with
  | none => .ok []
  | some .null => .ok []
  | some (.arr elems) => .ok (elems.map spreadCopy)
  | some _ => .error "TypeError: authCheck.subscriptions.map is not a function"

/-- The user object `fetchUser` assigns to `_user` on a truthy check. -/
def userOfAuthCheck (authCheck : PAResult) (subscriptions : List Json) : JustfixUser :=
  { email := authCheck.get "email"
    verified := authCheck.get "verified"
    id := authCheck.get "id"
    type := authCheck.get "type"
    subscriptions := subscriptions
    subscriptionLimit := authCheck.get "subscription_limit" }

/-- Everything observable about one `fetchUser()` call: the value of the
`_user` slot when the call settles, the settled promise (`Except.error` =
rejection), how many `auth_check` requests it issued, and whether it
invoked `clearUser()`. -/
structure FetchRes where
  state : Option JustfixUser
  outcome : Except String (Option JustfixUser)
  requests : Nat
  clearCalled : Bool

/-- `fetchUser()`: returns the cached `_user` when the slot is set;
otherwise awaits `userAuthenticated()` (one `auth_check` request) and on
a truthy result builds and caches the user (the `subscriptions`
expression may throw first), on a falsy result calls `clearUser()`.  A
rejection of the check propagates before any assignment. -/
def fetchUser (st : Option JustfixUser) (checkTransport : Except String Response) :
    FetchRes :=
  match st with
  | some u => ⟨some u, .ok (some u), 0, false⟩
  | none =>
    match userAuthenticated checkTransport with
    | .error m => ⟨none, .error m, 1, false⟩
    | .ok authCheck =>
      if authCheck.truthy then
        match subscriptionsOf authCheck with
        | .error m => ⟨none, .error m, 1, false⟩
        | .ok subscriptions =>
          let u := userOfAuthCheck authCheck subscriptions
          ⟨some u, .ok (some u), 1, false⟩
      else
        ⟨none, .ok none, 1, true⟩

/-- `setUser(user)`: direct cache write, no I/O. -/
def setUser (user : JustfixUser) (_st : Option JustfixUser) : Option JustfixUser :=
  some user

/-- `clearUser()`: sets the slot to `undefined`, no I/O. -/
def clearUser (_st : Option JustfixUser) : Option JustfixUser :=
  none

/-- JS `String.prototype.toLowerCase()` (the strings involved are ASCII,
where it agrees with `Char.toLower` characterwise). -/
def toLowerCase (s : String) : String :=
  ⟨s.data.map Char.toLower⟩

/-- Hexadecimal digit (uppercase), for percent-encoding. -/
def hexDigit (n : Nat) : Char :=
  if n < 10 then Char.ofNat (48 + n) else Char.ofNat (55 + n)

/-- UTF-8 encoding of a code point, as byte values. -/
def utf8Bytes (c : Char) : List Nat :=
  let n := c.toNat
  if n < 0x80 then [n]
  else if n < 0x800 then [0xC0 + n / 64, 0x80 + n % 64]
  else if n < 0x10000 then [0xE0 + n / 4096, 0x80 + (n / 64) % 64, 0x80 + n % 64]
  else [0xF0 + n / 262144, 0x80 + (n / 4096) % 64, 0x80 + (n / 64) % 64, 0x80 + n % 64]

/-- The characters `encodeURIComponent` leaves unescaped: alphanumerics
and `- _ . ! ~ * ' ( )`. -/
def uriUnescaped (c : Char) : Bool :=
  c.isAlphanum || c = '-' || c = '_' || c = '.' || c = '!' || c = '~' ||
    c = '*' || c = Char.ofNat 39 || c = '(' || c = ')'

/-- JS `encodeURIComponent`: unescaped characters pass through, every
other character becomes `%XX` per UTF-8 byte (uppercase hex). -/
def encodeURIComponent (s : String) : String :=
  s.foldl
    (fun acc c =>
      if uriUnescaped c then acc.push c
      else acc ++ String.join ((utf8Bytes c).map fun b =>
        String.singleton '%' |>.push (hexDigit (b / 16)) |>.push (hexDigit (b % 16))))
    ""

/-- The form body both request helpers build:
`Object.keys(params).map((k) => k=encodeURIComponent(params[k])).join("&")`
(JS object keys enumerate in insertion order, so a list of pairs). -/
def formBody (params : List (String × String)) : String :=
  String.intercalate "&" (params.map fun kv => kv.1 ++ "=" ++ encodeURIComponent kv.2)

/-- A request as the client issues it: URL, method, and the key/value
pairs that become the form-encoded body. -/
structure HttpRequest where
  url : String
  method : String
  params : List (String × String)

/-- The request `register` posts: username lower-cased. -/
def registerRequest (baseUrl username password userType : String) : HttpRequest :=
  ⟨baseUrl ++ "auth/register", "POST",
    [("username", toLowerCase username), ("password", password), ("user_type", userType)]⟩

/-- Everything observable about one `register(...)` call that resolves:
the JSON the promise resolves with, the `_user` slot at the moment of
resolution, and the slot once the un-awaited background `fetchUser()`
has settled (with whether that background call invoked `clearUser`). -/
structure RegisterTrace where
  json : PAResult
  stateAtResolve : Option JustfixUser
  stateAfterBackgroundFetch : Option JustfixUser
  backgroundClearCalled : Bool

/-- `register(username, password, userType)`: awaits the register post
(a rejection propagates), then calls `fetchUser()` WITHOUT awaiting it
and resolves with the post's JSON.  The background `fetchUser` runs
synchronously only up to its first `await`, so `_user` is untouched when
`register` resolves; its effect lands later. -/
def register (st : Option JustfixUser)
    (regTransport checkTransport : Except String Response) :
    Except String RegisterTrace :=
  match postAuthRequest regTransport with
  | .error m => .error m
  | .ok json =>
    let background := fetchUser st checkTransport
    .ok ⟨json, st, background.state, background.clearCalled⟩

/-- The request `login` posts: username lower-cased. -/
def loginRequest (baseUrl username password : String) : HttpRequest :=
  ⟨baseUrl ++ "auth/login", "POST",
    [("username", toLowerCase username), ("password", password)]⟩

/-- `login(username, password)`: posts the credentials through
`postLoginCredentials` and returns its JSON payload; `_user` is never
read or written, so the slot rides through unchanged. -/
def login (st : Option JustfixUser) (transport : Except String Response) :
    Except String Json × Option JustfixUser :=
  (postLoginCredentials transport, st)

/-- `logout()`: posts to `auth/logout`; the cache slot is untouched. -/
def logout (st : Option JustfixUser) (transport : Except String Response) :
    Except String PAResult × Option JustfixUser :=
  (postAuthRequest transport, st)

/-- `VerifyStatusCode` enum of the source. -/
inductive VerifyStatusCode where
  | Success
  | AlreadyVerified
  | Failure
  | Expired
  | Unknown
deriving DecidableEq

/-- Numeric values of the `VerifyStatusCode` enum members. -/
def VerifyStatusCode.code : VerifyStatusCode → Nat
  | .Success => 200
  | .AlreadyVerified => 208
  | .Failure => 400
  | .Expired => 404
  | .Unknown => 500

/-- `ResetStatusCode` enum of the source. -/
inductive ResetStatusCode where
  | Success
  | Accepted
  | Invalid
  | Expired
  | Unknown
deriving DecidableEq

/-- Numeric values of the `ResetStatusCode` enum members. -/
def ResetStatusCode.code : ResetStatusCode → Nat
  | .Success => 200
  | .Accepted => 202
  | .Invalid => 400
  | .Expired => 410
  | .Unknown => 500

/-- The `PasswordResetResponse` object: `statusCode`/`statusText` are
whatever the duck-typed reads produced (possibly `undefined`), `error`
is set only by the `catch` branch. -/
structure PasswordResetResponse where
  statusCode : Option Json
  statusText : Option Json
  error : Option String

/-- The request `resetPassword` posts. -/
def setPasswordRequest (baseUrl token newPassword : String) : HttpRequest :=
  ⟨baseUrl ++ "auth/set_password?token=" ++ token, "POST",
    [("new_password", newPassword)]⟩

/-- `resetPassword(token, newPassword)`: starts from
`{statusCode: ResetStatusCode.Unknown, statusText: ""}`; on a resolved
post overwrites both fields from `response.status_code` /
`response.status_text`; a thrown failure (always an `Error` here) lands
its message in `error`, keeping the initial fields.  Never throws. -/
def resetPassword (postTransport : Except String Response) : PasswordResetResponse :=
  match postAuthRequest postTransport with
  | .ok response =>
    { statusCode := response.get "status_code"
      statusText := response.get "status_text"
      error := none }
  | .error m =>
    { statusCode := some (.num (ResetStatusCode.Unknown.code : Int))
      statusText := some (.str "")
      error := some m }

/-- JS template interpolation of `params.get("token")`, which is `null`
when the query parameter is absent: `token=null` in the URL. -/
def jsTemplateOpt : Option String → String
  | some s => s
  | none => "null"

/-- The URL `resetPasswordRequest` posts to: with a username, the plain
endpoint; without one, the token-based endpoint with the token read
from the page's query string. -/
def resetPasswordRequestUrl (baseUrl : String) (username queryToken : Option String) :
    String :=
  match username with
  | some _ => baseUrl ++ "auth/reset_password_request"
  | none => baseUrl ++ "auth/reset_password_request_with_token?token=" ++
      jsTemplateOpt queryToken

/-- `resetPasswordRequest(username?)`: awaits the post inside `try`;
returns `true` when it resolves, `false` when it throws.  Never
throws. -/
def resetPasswordRequest (transport : Except String Response) : Bool :=
  match postAuthRequest transport with
  | .ok _ => true
  | .error _ => false

/-- The URL `resendVerifyEmail` posts to. -/
def resendVerifyEmailUrl (baseUrl : String) (token : Option String) : String :=
  match token with
  | some t => baseUrl ++ "auth/resend_verification_with_token?u=" ++ t
  | none => baseUrl ++ "auth/resend_verification"

/-- `resendVerifyEmail(token?)`: awaits the post inside `try`; returns
`true` when it resolves, `false` when it throws.  Never throws. -/
def resendVerifyEmail (transport : Except String Response) : Bool :=
  match postAuthRequest transport with
  | .ok _ => true
  | .error _ => false

/-- The request `isEmailAlreadyUsed` issues: a GET for the lower-cased
email, no body. -/
def isEmailAlreadyUsedRequest (baseUrl email : String) : HttpRequest :=
  ⟨baseUrl ++ "auth/account_exists/" ++ toLowerCase email, "GET", []⟩

/-- `isEmailAlreadyUsed(email)`: awaits `friendlyFetch` directly (a
transport failure propagates) and returns `result.ok` — the body is
never read. -/
def isEmailAlreadyUsed (transport : Except String Response) : Except String Bool :=
  match friendlyFetch transport with
  | .error m => .error m
  | .ok result => .ok result.ok

/-- The property names of the exported `Client` object, in source
order.  `clearUser` is defined in the module but not listed here. -/
def clientExports : List String :=
  ["userAuthenticated", "isEmailAlreadyUsed", "user", "fetchUser", "setUser",
   "register", "login", "logout", "verifyEmail", "resendVerifyEmail",
   "updateEmail", "updatePassword", "resetPasswordRequest", "resetPasswordCheck",
   "resetPassword", "buildingSubscribe", "buildingUnsubscribe",
   "emailUserSubscriptions", "emailUnsubscribeBuilding", "emailUnsubscribeAll"]

/-- One exported operation of the `Client` object (arguments kept only
where they can reach the `_user` slot). -/
inductive ClientOp where
  | userAuthenticated
  | isEmailAlreadyUsed
  | user
  | fetchUser
  | setUser (u : JustfixUser)
  | register
  | login
  | logout
  | verifyEmail
  | resendVerifyEmail
  | updateEmail
  | updatePassword
  | resetPasswordRequest
  | resetPasswordCheck
  | resetPassword
  | buildingSubscribe
  | buildingUnsubscribe
  | emailUserSubscriptions
  | emailUnsubscribeBuilding
  | emailUnsubscribeAll

/-- The transport outcomes available to one operation: the
`auth/auth_check` response (for `fetchUser`, directly or in `register`'s
background refresh) and the response to the operation's own request. -/
structure Env where
  checkTransport : Except String Response
  postTransport : Except String Response

/-- Effect of one exported operation on the `_user` slot, paired with
whether the operation's execution invoked `clearUser()`.  Only
`fetchUser`, `setUser` and `register` (via its background `fetchUser`)
touch the slot; every other export leaves it alone. -/
def clientStep (op : ClientOp) (st : Option JustfixUser) (env : Env) :
    Option JustfixUser × Bool :=
  match op with
  | .fetchUser =>
    let f := fetchUser st env.checkTransport
    (f.state, f.clearCalled)
  | .setUser u => (setUser u st, false)
  | .register =>
    match register st env.postTransport env.checkTransport with
    | .error _ => (st, false)
    | .ok trace => (trace.stateAfterBackgroundFetch, trace.backgroundClearCalled)
  | _ => (st, false)

/-! Helper lemmas shared by the claim theorems. -/

theorem fetchUser_some_eq (u : JustfixUser) (t : Except String Response) :
    fetchUser (some u) t = ⟨some u, .ok (some u), 0, false⟩ := rfl

theorem fetchUser_none_requests (t : Except String Response) :
    (fetchUser none t).requests = 1 := by
  unfold fetchUser
  cases h : userAuthenticated t with
  | error m => rfl
  | ok ac =>
    cases ht : ac.truthy
    · simp [ht]
    · cases hs : subscriptionsOf ac <;> simp [ht, hs]

theorem fetchUser_requests_le_one (st : Option JustfixUser) (t : Except String Response) :
    (fetchUser st t).requests ≤ 1 := by
  cases st with
  | some u => simp [fetchUser_some_eq]
  | none => rw [fetchUser_none_requests]

theorem fetchUser_state_none (st : Option JustfixUser) (t : Except String Response) :
    (fetchUser st t).state = none → st = none := by
  cases st with
  | none => intro _; rfl
  | some u => intro h; exact absurd h (by simp [fetchUser_some_eq])

theorem fetchUser_clear_imp (st : Option JustfixUser) (t : Except String Response) :
    (fetchUser st t).clearCalled = true →
      st = none ∧ ∃ ac, userAuthenticated t = .ok ac ∧ ac.truthy = false := by
  cases st with
  | some u => intro h; exact absurd h (by simp [fetchUser_some_eq])
  | none =>
    intro h
    refine ⟨rfl, ?_⟩
    unfold fetchUser at h
    cases hc : userAuthenticated t with
    | error m => rw [hc] at h; simp at h
    | ok ac =>
      rw [hc] at h
      by_cases ht : ac.truthy
      · simp only [ht, if_true] at h
        cases hs : subscriptionsOf ac <;> rw [hs] at h <;> simp at h
      · exact ⟨ac, rfl, by simpa using ht⟩

theorem register_ok_fields (st : Option JustfixUser)
    (regT checkT : Except String Response) (trace : RegisterTrace) :
    register st regT checkT = Except.ok trace →
      trace.stateAtResolve = st ∧
      trace.stateAfterBackgroundFetch = (fetchUser st checkT).state ∧
      trace.backgroundClearCalled = (fetchUser st checkT).clearCalled := by
  intro h
  unfold register at h
  cases hp : postAuthRequest regT with
  | error m => rw [hp] at h; exact absurd h (by simp)
  | ok j =>
    rw [hp] at h
    injection h with h2
    subst h2
    exact ⟨rfl, rfl, rfl⟩

/-- C1 counterexample: when the first `fetchUser()` on an empty cache
fails with a network error, no `clearUser()` is called anywhere, yet a
second `fetchUser()` issues a second `auth_check` request — two requests
with no intervening `clearUser()`, refuting the at-most-one bound as
stated. -/
theorem fetchUser_twice_network_failure_counterexample :
    (fetchUser none (Except.error "connection refused")).clearCalled = false ∧
    (fetchUser none (Except.error "connection refused")).requests
      + (fetchUser (fetchUser none (Except.error "connection refused")).state
          (Except.error "connection refused")).requests = 2 :=
  ⟨rfl, rfl⟩

/-- C1 amended: when the first `fetchUser()` completes with a populated
cache, the second call issues no `auth_check` request and returns the
cached user, for a total of at most one request across the two calls;
and after a `clearUser()` the next `fetchUser()` issues the
authentication check again. -/
theorem fetchUser_cache_hit_and_recheck (st : Option JustfixUser)
    (t1 t2 : Except String Response) :
    ((fetchUser st t1).state.isSome = true →
      (fetchUser (fetchUser st t1).state t2).requests = 0 ∧
      (fetchUser (fetchUser st t1).state t2).outcome = .ok (fetchUser st t1).state ∧
      (fetchUser st t1).requests + (fetchUser (fetchUser st t1).state t2).requests ≤ 1) ∧
    (∀ t : Except String Response, (fetchUser (clearUser st) t).requests = 1) := by
  constructor
  · intro h
    obtain ⟨u, hu⟩ := Option.isSome_iff_exists.mp h
    rw [hu]
    refine ⟨rfl, rfl, ?_⟩
    simpa [fetchUser_some_eq] using fetchUser_requests_le_one st t1
  · intro t
    exact fetchUser_none_requests t

/-- C1 witness for `fetchUser_cache_hit_and_recheck`: a concrete first
call that populates the cache, after which the second call issues no
request. -/
theorem fetchUser_cache_hit_and_recheck_witness :
    (fetchUser none (Except.ok ⟨true, Except.ok (Json.obj [])⟩)).state.isSome = true ∧
    (fetchUser (fetchUser none (Except.ok ⟨true, Except.ok (Json.obj [])⟩)).state
        (Except.error "offline")).requests = 0 :=
  ⟨rfl,
   ((fetchUser_cache_hit_and_recheck none (Except.ok ⟨true, Except.ok (Json.obj [])⟩)
      (Except.error "offline")).1 rfl).1⟩

/-- C2 counterexample: a truthy `auth_check` body whose `subscriptions`
field is the number `5` makes `fetchUser()` throw a `TypeError` (`.map`
is not a function) before any assignment, so the cache is NOT populated
from the response fields as the claim states. -/
theorem fetchUser_truthy_typeerror_counterexample :
    PAResult.truthy (.json (.obj [("subscriptions", Json.num 5)])) = true ∧
    (fetchUser none
        (Except.ok ⟨true, Except.ok (Json.obj [("subscriptions", Json.num 5)])⟩)).state
      = none ∧
    (fetchUser none
        (Except.ok ⟨true, Except.ok (Json.obj [("subscriptions", Json.num 5)])⟩)).outcome
      = Except.error "TypeError: authCheck.subscriptions.map is not a function" :=
  ⟨rfl, rfl, rfl⟩

/-- C2 amended: on an empty cache, a failed `auth_check` leaves the
cache empty (the rejection propagates before any write), a falsy result
clears it, and a truthy result populates it from the response fields
PROVIDED the `subscriptions` field is absent, `null`, or an array; a
truthy result with any other `subscriptions` value makes `fetchUser`
throw a `TypeError`, again leaving the cache empty. -/
theorem fetchUser_emptyCache_cases (t : Except String Response) :
    (∀ m, userAuthenticated t = Except.error m →
      (fetchUser none t).state = none ∧ (fetchUser none t).outcome = Except.error m) ∧
    (∀ ac, userAuthenticated t = Except.ok ac → ac.truthy = false →
      (fetchUser none t).state = none ∧ (fetchUser none t).clearCalled = true) ∧
    (∀ ac subs, userAuthenticated t = Except.ok ac → ac.truthy = true →
      subscriptionsOf ac = Except.ok subs →
      (fetchUser none t).state = some (userOfAuthCheck ac subs)) ∧
    (∀ ac m, userAuthenticated t = Except.ok ac → ac.truthy = true →
      subscriptionsOf ac = Except.error m →
      (fetchUser none t).state = none ∧ (fetchUser none t).outcome = Except.error m) := by
  refine ⟨?_, ?_, ?_, ?_⟩
  · intro m hm
    exact ⟨by simp [fetchUser, hm], by simp [fetchUser, hm]⟩
  · intro ac hac htr
    exact ⟨by simp [fetchUser, hac, htr], by simp [fetchUser, hac, htr]⟩
  · intro ac subs hac htr hsubs
    simp [fetchUser, hac, htr, hsubs]
  · intro ac m hac htr hsubs
    exact ⟨by simp [fetchUser, hac, htr, hsubs], by simp [fetchUser, hac, htr, hsubs]⟩

/-- C2 witness for `fetchUser_emptyCache_cases`: concrete falsy, truthy
and failing checks. -/
theorem fetchUser_emptyCache_cases_witness :
    (fetchUser none (Except.ok ⟨true, Except.ok Json.null⟩)).state = none ∧
    (fetchUser none
        (Except.ok ⟨true, Except.ok (Json.obj [("email", Json.str "a@b.c")])⟩)).state
      = some (userOfAuthCheck (.json (.obj [("email", Json.str "a@b.c")])) []) ∧
    (fetchUser none (Except.error "offline")).state = none :=
  ⟨((fetchUser_emptyCache_cases (Except.ok ⟨true, Except.ok Json.null⟩)).2.1
      (.json .null) rfl rfl).1,
   (fetchUser_emptyCache_cases
        (Except.ok ⟨true, Except.ok (Json.obj [("email", Json.str "a@b.c")])⟩)).2.2.1
      (.json (.obj [("email", Json.str "a@b.c")])) [] rfl rfl rfl,
   ((fetchUser_emptyCache_cases (Except.error "offline")).1 "offline" rfl).1⟩

/-- C8: the status-code enumerations carry exactly the fixed numeric
values the spec lists. -/
theorem statusCode_enums_fixed :
    VerifyStatusCode.Success.code = 200 ∧
    VerifyStatusCode.AlreadyVerified.code = 208 ∧
    VerifyStatusCode.Failure.code = 400 ∧
    VerifyStatusCode.Expired.code = 404 ∧
    VerifyStatusCode.Unknown.code = 500 ∧
    ResetStatusCode.Success.code = 200 ∧
    ResetStatusCode.Accepted.code = 202 ∧
    ResetStatusCode.Invalid.code = 400 ∧
    ResetStatusCode.Expired.code = 410 ∧
    ResetStatusCode.Unknown.code = 500 := by
  decide

/-- C3 counterexample: a successful `register` on an empty cache whose
subsequent `auth_check` reports the new user: at the moment the promise
resolves the cache (`stateAtResolve`) is still `none`, not the user the
check reports — the cache does not yet reflect the newly registered
user, because `fetchUser()` is fired without being awaited. -/
theorem register_resolves_before_cache_refresh_counterexample :
    register none (Except.ok ⟨true, Except.ok Json.null⟩)
        (Except.ok ⟨true, Except.ok (Json.obj [("email", Json.str "new@user.org")])⟩)
      = Except.ok ⟨PAResult.json Json.null, none,
          some (userOfAuthCheck (.json (.obj [("email", Json.str "new@user.org")])) []),
          false⟩ ∧
    (none : Option JustfixUser) ≠
      some (userOfAuthCheck (.json (.obj [("email", Json.str "new@user.org")])) []) :=
  ⟨rfl, fun h => Option.noConfusion h⟩

/-- C3 amended: when `register` resolves, the user cache is exactly what
it was before the call (the refresh is fire-and-forget); the cache
reflects the authentication-check result only after the background
`fetchUser` completes, i.e. eventually, not at resolution. -/
theorem register_cache_unchanged_at_resolve (st : Option JustfixUser)
    (regT checkT : Except String Response) (trace : RegisterTrace) :
    register st regT checkT = Except.ok trace →
      trace.stateAtResolve = st ∧
      trace.stateAfterBackgroundFetch = (fetchUser st checkT).state := by
  intro h
  exact ⟨(register_ok_fields st regT checkT trace h).1,
         (register_ok_fields st regT checkT trace h).2.1⟩

/-- C3 witness for `register_cache_unchanged_at_resolve` at a concrete
successful registration. -/
theorem register_cache_unchanged_at_resolve_witness :
    (⟨PAResult.json Json.null, none, none, false⟩ : RegisterTrace).stateAtResolve = none ∧
    (⟨PAResult.json Json.null, none, none, false⟩ : RegisterTrace).stateAfterBackgroundFetch
      = (fetchUser none (Except.error "bg offline")).state :=
  register_cache_unchanged_at_resolve none (Except.ok ⟨true, Except.ok Json.null⟩)
    (Except.error "bg offline") ⟨PAResult.json Json.null, none, none, false⟩ rfl

/-- C4: `resetPassword` is total (never throws): a resolved post whose
JSON body is an object with `status_code: c` and `status_text: t` yields
`statusCode = c`, `statusText = t` and no `error`; a thrown failure with
message `m` yields `statusCode = 500`, `statusText = ""` and
`error = m`.  The `setPasswordRequest` conjunct records the request the
call posts for the given token and new password. -/
theorem resetPassword_shapes (baseUrl token newPassword : String)
    (c : Int) (s m : String) (b : Bool) :
    resetPassword
        (Except.ok ⟨b, Except.ok
          (Json.obj [("status_code", Json.num c), ("status_text", Json.str s)])⟩)
      = ⟨some (Json.num c), some (Json.str s), none⟩ ∧
    resetPassword (Except.error m)
      = ⟨some (Json.num 500), some (Json.str ""), some m⟩ ∧
    setPasswordRequest baseUrl token newPassword
      = ⟨baseUrl ++ "auth/set_password?token=" ++ token, "POST",
          [("new_password", newPassword)]⟩ :=
  ⟨rfl, rfl, rfl⟩

/-- C5: the boolean-returning flows `resetPasswordRequest` and
`resendVerifyEmail` are total (never raise): they return `true` exactly
when the underlying `postAuthRequest` resolved, and `false` on any
thrown failure. -/
theorem booleanFlows_swallow_failures (t : Except String Response) :
    (resetPasswordRequest t = true ↔ ∃ r, postAuthRequest t = Except.ok r) ∧
    (resendVerifyEmail t = true ↔ ∃ r, postAuthRequest t = Except.ok r) ∧
    (∀ m, postAuthRequest t = Except.error m →
      resetPasswordRequest t = false ∧ resendVerifyEmail t = false) := by
  cases h : postAuthRequest t <;>
    simp [resetPasswordRequest, resendVerifyEmail, h]

/-- C5 witness for `booleanFlows_swallow_failures`: a concrete failure
returning `false` and a concrete success returning `true`. -/
theorem booleanFlows_swallow_failures_witness :
    resetPasswordRequest (Except.error "dns failure") = false ∧
    resendVerifyEmail (Except.ok ⟨true, Except.ok Json.null⟩) = true :=
  ⟨((booleanFlows_swallow_failures (Except.error "dns failure")).2.2 "dns failure" rfl).1,
   (booleanFlows_swallow_failures (Except.ok ⟨true, Except.ok Json.null⟩)).2.1.mpr
     ⟨.json .null, rfl⟩⟩

/-- C6 counterexample: on a response whose body fails to parse as JSON,
`postAuthRequest` returns the raw response object, but
`postLoginCredentials` — the login path — propagates the parse failure
as a thrown error instead of returning the raw response, refuting the
claim for login. -/
theorem postLoginCredentials_parse_failure_counterexample :
    postLoginCredentials
        (Except.ok ⟨true, Except.error "SyntaxError: unexpected token in JSON"⟩)
      = Except.error "SyntaxError: unexpected token in JSON" ∧
    postAuthRequest
        (Except.ok ⟨true, Except.error "SyntaxError: unexpected token in JSON"⟩)
      = Except.ok (.raw ⟨true, Except.error "SyntaxError: unexpected token in JSON"⟩) :=
  ⟨rfl, rfl⟩

/-- C6 amended: when the transport succeeds but the body fails to parse
as JSON, callers through `postAuthRequest` get the raw response object
back, while `postLoginCredentials` (used by login) propagates the parse
failure to its caller. -/
theorem parse_failure_degrades_amended (r : Response) (m : String) :
    r.jsonResult = Except.error m →
      postAuthRequest (Except.ok r) = Except.ok (.raw r) ∧
      postLoginCredentials (Except.ok r) = Except.error m := by
  intro h
  exact ⟨by simp [postAuthRequest, friendlyFetch, h],
         by simp [postLoginCredentials, friendlyFetch, h]⟩

/-- C6 witness for `parse_failure_degrades_amended` at a concrete
unparseable body. -/
theorem parse_failure_degrades_amended_witness :
    postAuthRequest (Except.ok ⟨true, Except.error "bad body"⟩)
      = Except.ok (.raw ⟨true, Except.error "bad body"⟩) ∧
    postLoginCredentials (Except.ok ⟨true, Except.error "bad body"⟩)
      = Except.error "bad body" :=
  parse_failure_degrades_amended ⟨true, Except.error "bad body"⟩ "bad body" rfl

/-- C7: `isEmailAlreadyUsed` issues a GET whose URL embeds (hence
contains) the lower-cased email, and returns the HTTP `ok` flag of the
response: the result depends only on `response.ok`, never on the
body. -/
theorem isEmailAlreadyUsed_spec (baseUrl email : String) (r : Response) :
    (isEmailAlreadyUsedRequest baseUrl email).method = "GET" ∧
    (isEmailAlreadyUsedRequest baseUrl email).url
      = baseUrl ++ "auth/account_exists/" ++ toLowerCase email ∧
    (∃ before, (isEmailAlreadyUsedRequest baseUrl email).url
      = before ++ toLowerCase email) ∧
    isEmailAlreadyUsed (Except.ok r) = Except.ok r.ok ∧
    (∀ r2 : Response, r2.ok = r.ok →
      isEmailAlreadyUsed (Except.ok r2) = isEmailAlreadyUsed (Except.ok r)) := by
  refine ⟨rfl, rfl, ⟨baseUrl ++ "auth/account_exists/", rfl⟩, rfl, ?_⟩
  intro r2 h
  simp [isEmailAlreadyUsed, friendlyFetch, h]

/-- C7 witness for `isEmailAlreadyUsed_spec`: the `A@B.com` example of
the spec, and body-independence between a response with an unparseable
body and one with a JSON body. -/
theorem isEmailAlreadyUsed_spec_witness :
    (isEmailAlreadyUsedRequest "" "A@B.com").url = "auth/account_exists/a@b.com" ∧
    isEmailAlreadyUsed (Except.ok ⟨true, Except.error "ignored body"⟩)
      = isEmailAlreadyUsed (Except.ok ⟨true, Except.ok Json.null⟩) :=
  ⟨by
    rw [(isEmailAlreadyUsed_spec "" "A@B.com" ⟨true, Except.ok Json.null⟩).2.1]
    decide,
   (isEmailAlreadyUsed_spec "" "A@B.com" ⟨true, Except.ok Json.null⟩).2.2.2.2
     ⟨true, Except.error "ignored body"⟩ rfl⟩

/-- C9: `login` posts the username lower-cased (both as the parameter
pair and in the form-encoded body), resolves with exactly the JSON
payload of the response, and leaves the user cache slot unchanged. -/
theorem login_spec (baseUrl username password : String)
    (st : Option JustfixUser) (t : Except String Response) :
    (loginRequest baseUrl username password).params
      = [("username", toLowerCase username), ("password", password)] ∧
    formBody (loginRequest baseUrl username password).params
      = "username=" ++ encodeURIComponent (toLowerCase username)
          ++ "&password=" ++ encodeURIComponent password ∧
    (login st t).2 = st ∧
    (∀ (r : Response) (j : Json), r.jsonResult = Except.ok j →
      (login st (Except.ok r)).1 = Except.ok j) := by
  refine ⟨rfl, ?_, rfl, ?_⟩
  · simp only [loginRequest, formBody, List.map, String.intercalate, String.intercalate.go]
    rw [show ("username" ++ "=" : String) = "username=" from rfl]
    rw [show ("password" ++ "=" : String) = "password=" from rfl]
    rw [String.append_assoc ("username=" ++ encodeURIComponent (toLowerCase username)) "&"
          ("password=" ++ encodeURIComponent password)]
    rw [← String.append_assoc "&" "password=" (encodeURIComponent password)]
    rw [show ("&" ++ "password=" : String) = "&password=" from rfl]
    rw [← String.append_assoc ("username=" ++ encodeURIComponent (toLowerCase username))
          "&password=" (encodeURIComponent password)]
  · intro r j h
    simp [login, postLoginCredentials, friendlyFetch, h]

/-- C9 witness for `login_spec`: a concrete login resolving with the raw
token payload. -/
theorem login_spec_witness :
    (login none (Except.ok ⟨true, Except.ok (Json.obj [("token", Json.str "t0k")])⟩)).1
      = Except.ok (Json.obj [("token", Json.str "t0k")]) :=
  (login_spec "" "U" "p" none
      (Except.ok ⟨true, Except.ok (Json.obj [("token", Json.str "t0k")])⟩)).2.2.2
    ⟨true, Except.ok (Json.obj [("token", Json.str "t0k")])⟩
    (Json.obj [("token", Json.str "t0k")]) rfl

/-- C10 counterexample: `register`, an exported operation other than
`fetchUser`, also invokes `clearUser()` (through its un-awaited
background `fetchUser`) when the cache is empty and the check is falsy,
leaving the cache set to empty — so `fetchUser` is not the only exported
operation that can set the cache back to empty. -/
theorem register_clears_cache_counterexample :
    clientStep .register none
        ⟨Except.ok ⟨true, Except.ok Json.null⟩, Except.ok ⟨true, Except.ok Json.null⟩⟩
      = (none, true) :=
  rfl

/-- C10 amended: `clearUser` is not among the exported `Client`
properties; `setUser` always leaves a populated cache and `logout` never
touches the slot; no exported operation can empty a populated cache; and
the only exported operations whose execution performs the cache-clearing
write are `fetchUser` and `register` (the latter through its background
`fetchUser`), in both cases exactly when the cache was already empty and
the authentication check resolved with a falsy result. -/
theorem client_cache_clearing (op : ClientOp) (st : Option JustfixUser) (env : Env) :
    "clearUser" ∉ clientExports ∧
    (∀ u : JustfixUser, (clientStep (.setUser u) st env).1 = some u) ∧
    clientStep .logout st env = (st, false) ∧
    ((clientStep op st env).1 = none → st = none) ∧
    ((clientStep op st env).2 = true →
      st = none ∧ (op = .fetchUser ∨ op = .register) ∧
      ∃ ac, userAuthenticated env.checkTransport = Except.ok ac ∧ ac.truthy = false) := by
  refine ⟨by decide, fun u => rfl, rfl, ?_, ?_⟩
  · cases op
    case fetchUser => exact fun h => fetchUser_state_none st env.checkTransport h
    case setUser u => exact fun h => absurd h (by simp [clientStep, setUser])
    case register =>
      intro h
      dsimp only [clientStep] at h
      cases hr : register st env.postTransport env.checkTransport with
      | error m => rw [hr] at h; exact h
      | ok trace =>
        rw [hr] at h
        have h2 : trace.stateAfterBackgroundFetch = none := h
        rw [(register_ok_fields st env.postTransport env.checkTransport trace hr).2.1] at h2
        exact fetchUser_state_none st env.checkTransport h2
    all_goals exact fun h => h
  · cases op
    case fetchUser =>
      intro h
      have hc := fetchUser_clear_imp st env.checkTransport h
      exact ⟨hc.1, Or.inl rfl, hc.2⟩
    case register =>
      intro h
      dsimp only [clientStep] at h
      cases hr : register st env.postTransport env.checkTransport with
      | error m => rw [hr] at h; exact absurd h Bool.false_ne_true
      | ok trace =>
        rw [hr] at h
        have h2 : trace.backgroundClearCalled = true := h
        rw [(register_ok_fields st env.postTransport env.checkTransport trace hr).2.2] at h2
        have hc := fetchUser_clear_imp st env.checkTransport h2
        exact ⟨hc.1, Or.inr rfl, hc.2⟩
    case setUser u => exact fun h => absurd h Bool.false_ne_true
    all_goals exact fun h => absurd h Bool.false_ne_true

/-- C10 witness for `client_cache_clearing`: `clearUser` is not
exported, and a concrete `fetchUser` on an empty cache with a falsy
check performs the clearing write. -/
theorem client_cache_clearing_witness :
    "clearUser" ∉ clientExports ∧
    ((none : Option JustfixUser) = none ∧
      (ClientOp.fetchUser = ClientOp.fetchUser ∨ ClientOp.fetchUser = ClientOp.register) ∧
      ∃ ac, userAuthenticated (Except.ok ⟨true, Except.ok Json.null⟩) = Except.ok ac ∧
        ac.truthy = false) :=
  ⟨(client_cache_clearing .fetchUser none
      ⟨Except.ok ⟨true, Except.ok Json.null⟩, Except.error "unused"⟩).1,
   (client_cache_clearing .fetchUser none
      ⟨Except.ok ⟨true, Except.ok Json.null⟩, Except.error "unused"⟩).2.2.2.2 rfl⟩

end AuthClient
